import Mathlib

/-!
Shallow embedding of the HSMS message codec (rust-hsms-secs2).

Source files embedded: src/hsms.rs and src/utils/serialize.rs.

Bytes are modelled as natural numbers; machine integers (u8, u16, u32) are
natural numbers reduced modulo the appropriate power of two exactly where the
source performs a fixed-width operation.  The bincode serialization used by
the source (crate-root functions, legacy configuration) writes fixed-width
little-endian integers and flattens nested structs field by field; the
embedding writes those bytes explicitly.  Fallible operations return Except
or Option; the unwrap and expect calls inside HSMSMessage::from_bytes are
modelled as a distinguished DecodeAbort error, proved unreachable.
-/

namespace HSMS

/-- The S-Type enumeration of src/hsms.rs (enum SessionType, repr u8,
values 0..7 and 9; 8 and 10 are unused). -/
inductive SessionType where
  | SECS2 : SessionType
  | SelectReq : SessionType
  | SelectRsp : SessionType
  | DeselectReq : SessionType
  | DeselectRsp : SessionType
  | LinktestReq : SessionType
  | LinktestRsp : SessionType
  | RejectReq : SessionType
  | SeparateReq : SessionType
deriving DecidableEq, Repr

/-- The numeric discriminant of each SessionType (IntoPrimitive). -/
def SessionType.toNat : SessionType → Nat
  | .SECS2 => 0
  | .SelectReq => 1
  | .SelectRsp => 2
  | .DeselectReq => 3
  | .DeselectRsp => 4
  | .LinktestReq => 5
  | .LinktestRsp => 6
  | .RejectReq => 7
  | .SeparateReq => 9

/-- TryFromPrimitive for SessionType: the inverse of the discriminant map,
failing with the offending value for any number outside the enumeration. -/
def SessionType.tryFrom (n : Nat) : Except Nat SessionType :=
  if n = 0 then .ok .SECS2
  else if n = 1 then .ok .SelectReq
  else if n = 2 then .ok .SelectRsp
  else if n = 3 then .ok .DeselectReq
  else if n = 4 then .ok .DeselectRsp
  else if n = 5 then .ok .LinktestReq
  else if n = 6 then .ok .LinktestRsp
  else if n = 7 then .ok .RejectReq
  else if n = 9 then .ok .SeparateReq
  else .error n

/-- struct SessionID { session_id : u16 }. -/
structure SessionID where
  session_id : Nat
deriving DecidableEq, Repr

/-- SessionID::from_direction_equip_id: (direction & 0x8000) | (equip_id & 0x7FFF). -/
def SessionID.from_direction_equip_id (direction equip_id : Nat) : SessionID :=
  { session_id := (direction &&& 0x8000) ||| (equip_id &&& 0x7FFF) }

/-- struct HeaderByte2 { header_byte2 : u8 }. -/
structure HeaderByte2 where
  header_byte2 : Nat
deriving DecidableEq, Repr

/-- HeaderByte2::from_w_bit_stream: (w_bit & 0x80) | (stream & 0x7F). -/
def HeaderByte2.from_w_bit_stream (w_bit stream : Nat) : HeaderByte2 :=
  { header_byte2 := (w_bit &&& 0x80) ||| (stream &&& 0x7F) }

/-- struct HSMSHeader: SessionID, HeaderByte2, header_byte3 (u8),
p_type (u8), s_type (u8), system_bytes (u32). -/
structure HSMSHeader where
  session_id : SessionID
  header_byte2 : HeaderByte2
  header_byte3 : Nat
  p_type : Nat
  s_type : Nat
  system_bytes : Nat
deriving DecidableEq, Repr

/-- HSMSHeader::new: total dispatch over the SessionType, mirroring the
match in src/hsms.rs lines 133-244 case by case. -/
def HSMSHeader.new (session_type : SessionType)
    (session_id direction equip_id header_byte2 w_bit stream header_byte3
      system_bytes : Nat) : HSMSHeader :=
  match session_type with
  | .SECS2 =>
      { session_id := SessionID.from_direction_equip_id direction equip_id
        header_byte2 := HeaderByte2.from_w_bit_stream w_bit stream
        header_byte3 := header_byte3
        p_type := 0
        s_type := SessionType.toNat .SECS2
        system_bytes := system_bytes }
  | .SelectReq =>
      { session_id := { session_id := 0xFFFF }
        header_byte2 := { header_byte2 := 0 }
        header_byte3 := 0
        p_type := 0
        s_type := SessionType.toNat .SelectReq
        system_bytes := system_bytes }
  | .SelectRsp =>
      { session_id := { session_id := session_id }
        header_byte2 := { header_byte2 := 0 }
        header_byte3 := header_byte3
        p_type := 0
        s_type := SessionType.toNat .SelectRsp
        system_bytes := system_bytes }
  | .DeselectReq =>
      { session_id := { session_id := 0xFFFF }
        header_byte2 := { header_byte2 := 0 }
        header_byte3 := 0
        p_type := 0
        s_type := SessionType.toNat .DeselectReq
        system_bytes := system_bytes }
  | .DeselectRsp =>
      { session_id := { session_id := session_id }
        header_byte2 := { header_byte2 := 0 }
        header_byte3 := header_byte3
        p_type := 0
        s_type := SessionType.toNat .DeselectRsp
        system_bytes := system_bytes }
  | .LinktestReq =>
      { session_id := { session_id := 0xFFFF }
        header_byte2 := { header_byte2 := 0 }
        header_byte3 := 0
        p_type := 0
        s_type := SessionType.toNat .LinktestReq
        system_bytes := system_bytes }
  | .LinktestRsp =>
      { session_id := { session_id := 0xFFFF }
        header_byte2 := { header_byte2 := 0 }
        header_byte3 := 0
        p_type := 0
        s_type := SessionType.toNat .LinktestRsp
        system_bytes := system_bytes }
  | .RejectReq =>
      { session_id := { session_id := session_id }
        header_byte2 := { header_byte2 := header_byte2 }
        header_byte3 := header_byte3
        p_type := 0
        s_type := SessionType.toNat .RejectReq
        system_bytes := system_bytes }
  | .SeparateReq =>
      { session_id := { session_id := 0xFFFF }
        header_byte2 := { header_byte2 := 0 }
        header_byte3 := 0
        p_type := 0
        s_type := SessionType.toNat .SeparateReq
        system_bytes := system_bytes }

/-- HSMSHeader::get_session_type: SessionType::try_from(self.s_type). -/
def HSMSHeader.get_session_type (h : HSMSHeader) : Except Nat SessionType :=
  SessionType.tryFrom h.s_type

/-- HSMSHeader::len: the fixed header width, 10 bytes. -/
def HSMSHeader.len (_ : HSMSHeader) : Nat := 10

/-- The four little-endian bytes of a u32 value, as bincode writes them. -/
def le32 (n : Nat) : List Nat :=
  [n % 256, n / 256 % 256, n / 65536 % 256, n / 16777216 % 256]

/-- serialize::serialize on an HSMSHeader: bincode flattens the struct
field by field with fixed-width little-endian integers, giving exactly the
10-byte sequence SessionID(2, LE), HeaderByte2(1), HeaderByte3(1),
PType(1), SType(1), SystemBytes(4, LE). -/
def HSMSHeader.serialize (h : HSMSHeader) : List Nat :=
  [h.session_id.session_id % 256, h.session_id.session_id / 256 % 256,
   h.header_byte2.header_byte2 % 256,
   h.header_byte3 % 256,
   h.p_type % 256,
   h.s_type % 256] ++ le32 h.system_bytes

/-- bincode::deserialize of a u32 from a byte slice: reads four bytes
little-endian, fails if fewer are available. -/
def deserialize_u32 (b : List Nat) : Option Nat :=
  match b with
  | b0 :: b1 :: b2 :: b3 :: _ =>
      some (b0 + 256 * b1 + 65536 * b2 + 16777216 * b3)
  | _ => none

/-- serialize::deserialize_from_bytes on an HSMSHeader: reads the 10
header bytes in field order, fails if fewer are available. -/
def deserialize_header (b : List Nat) : Option HSMSHeader :=
  match b with
  | s0 :: s1 :: hb2 :: hb3 :: pt :: st :: y0 :: y1 :: y2 :: y3 :: _ =>
      some { session_id := { session_id := s0 + 256 * s1 }
             header_byte2 := { header_byte2 := hb2 }
             header_byte3 := hb3
             p_type := pt
             s_type := st
             system_bytes := y0 + 256 * y1 + 65536 * y2 + 16777216 * y3 }
  | _ => none

/-- struct HSMSMessage { message_length : u32, hsms_header, message_text : Option of Vec of u8 }. -/
structure HSMSMessage where
  message_length : Nat
  hsms_header : HSMSHeader
  message_text : Option (List Nat)
deriving DecidableEq, Repr

/-- HSMSMessage::new: message_length = header.len() + text.len() as u32
(u32 arithmetic, hence modulo 2^32), body always stored as Some. -/
def HSMSMessage.new (h : HSMSHeader) (message_text : List Nat) : HSMSMessage :=
  { message_length := (HSMSHeader.len h + message_text.length) % 4294967296
    hsms_header := h
    message_text := some message_text }

/-- The error outcomes of HSMSMessage::from_bytes.  TooShort models the
Err value the length guard returns; DecodeAbort models the unwrap and
expect calls on the inner bincode decodes aborting (proved unreachable). -/
inductive FramingError where
  | TooShort : FramingError
  | DecodeAbort : FramingError
deriving DecidableEq, Repr

/-- HSMSMessage::from_bytes: guard vec.len() < 14; decode the u32 length
from bytes 0..4 and the header from bytes 4..14; take bytes 14.. as the
body when vec.len() > 14, otherwise store the body as None. -/
def HSMSMessage.from_bytes (vec : List Nat) : Except FramingError HSMSMessage :=
  if vec.length < 14 then .error .TooShort
  else
    match deserialize_u32 (vec.take 4), deserialize_header ((vec.drop 4).take 10) with
    | some message_length, some hsms_header =>
        .ok { message_length := message_length
              hsms_header := hsms_header
              message_text := if 14 < vec.length then some (vec.drop 14) else none }
    | _, _ => .error .DecodeAbort

/-- HSMSMessage::to_bytes: u32 length (LE) ++ header bytes ++ body bytes
(nothing appended when the body is None). -/
def HSMSMessage.to_bytes (m : HSMSMessage) : List Nat :=
  le32 m.message_length ++ HSMSHeader.serialize m.hsms_header ++
    (match m.message_text with
     | some t => t
     | none => [])

/-- Field-width well-formedness of a header: each field fits the width of
its machine-integer type in the source. -/
def HSMSHeader.wf (h : HSMSHeader) : Prop :=
  h.session_id.session_id < 65536 ∧ h.header_byte2.header_byte2 < 256 ∧
    h.header_byte3 < 256 ∧ h.p_type < 256 ∧ h.s_type < 256 ∧
    h.system_bytes < 4294967296

instance (h : HSMSHeader) : Decidable (HSMSHeader.wf h) := by
  unfold HSMSHeader.wf; infer_instance

/-- Field-width well-formedness of a message: well-formed header and a
message_length fitting u32. -/
def HSMSMessage.wf (m : HSMSMessage) : Prop :=
  HSMSHeader.wf m.hsms_header ∧ m.message_length < 4294967296

instance (m : HSMSMessage) : Decidable (HSMSMessage.wf m) := by
  unfold HSMSMessage.wf; infer_instance

/-- The number of body bytes a message carries: length of the Some body,
zero when the body is None. -/
def HSMSMessage.bodyLen (m : HSMSMessage) : Nat :=
  match m.message_text with
  | some t => t.length
  | none => 0

/-- The select-request example header used across the spec: session_id
0xFFFF, zero middle bytes, s_type 1, system_bytes 0x11111111. -/
def hdr1 : HSMSHeader :=
  { session_id := { session_id := 0xFFFF }
    header_byte2 := { header_byte2 := 0 }
    header_byte3 := 0
    p_type := 0
    s_type := 1
    system_bytes := 0x11111111 }

/-- A copy of the example header with s_type set to the unused value 8. -/
def hdr8 : HSMSHeader := { hdr1 with s_type := 8 }

/-- The message the 14-byte encoding of hdr1 parses back to: same header
and length, body stored as None. -/
def msg_none : HSMSMessage :=
  { message_length := 10, hsms_header := hdr1, message_text := none }

end HSMS

deriving instance DecidableEq for Except

open HSMS

/-- A u32 decode succeeds on any slice holding at least four bytes. -/
theorem deserialize_u32_isSome (l : List Nat) (h : 4 ≤ l.length) :
    (deserialize_u32 l).isSome := by
  match l with
  | _ :: _ :: _ :: _ :: _ => rfl
  | [] | [_] | [_, _] | [_, _, _] => simp at h

/-- A header decode succeeds on any slice holding at least ten bytes. -/
theorem deserialize_header_isSome (l : List Nat) (h : 10 ≤ l.length) :
    (deserialize_header l).isSome := by
  match l with
  | _ :: _ :: _ :: _ :: _ :: _ :: _ :: _ :: _ :: _ :: _ => rfl
  | [] | [_] | [_, _] | [_, _, _] | [_, _, _, _] | [_, _, _, _, _]
  | [_, _, _, _, _, _] | [_, _, _, _, _, _, _] | [_, _, _, _, _, _, _, _]
  | [_, _, _, _, _, _, _, _, _] => simp at h

/-- from_bytes on an explicit 14-byte prefix followed by any tail: the
length is the little-endian value of the first four bytes, the header
fields are rebuilt from bytes 4..14, and the tail becomes the body, stored
as None exactly when the tail is empty. -/
theorem from_bytes_frame (x0 x1 x2 x3 x4 x5 x6 x7 x8 x9 y0 y1 y2 y3 : Nat)
    (body : List Nat) :
    HSMSMessage.from_bytes (x0 :: x1 :: x2 :: x3 :: x4 :: x5 :: x6 :: x7 ::
        x8 :: x9 :: y0 :: y1 :: y2 :: y3 :: body) = .ok
      { message_length := x0 + 256 * x1 + 65536 * x2 + 16777216 * x3
        hsms_header :=
          { session_id := { session_id := x4 + 256 * x5 }
            header_byte2 := { header_byte2 := x6 }
            header_byte3 := x7
            p_type := x8
            s_type := x9
            system_bytes := y0 + 256 * y1 + 65536 * y2 + 16777216 * y3 }
        message_text := if body = [] then none else some body } := by
  cases body with
  | nil => rfl
  | cons a t =>
      unfold HSMSMessage.from_bytes
      rw [if_neg (by simp only [List.length_cons]; omega)]
      rw [if_pos (by simp only [List.length_cons]; omega)]
      rfl

/-- Exactly 14 input bytes always parse successfully into a message whose
body is stored as None. -/
theorem from_bytes_exact14 (vec : List Nat) (h : vec.length = 14) :
    ∃ m, HSMSMessage.from_bytes vec = .ok m ∧ m.message_text = none := by
  unfold HSMSMessage.from_bytes
  have h4 : 4 ≤ (vec.take 4).length := by simp; omega
  have h10 : 10 ≤ ((vec.drop 4).take 10).length := by simp; omega
  obtain ⟨ml, hml⟩ := Option.isSome_iff_exists.mp (deserialize_u32_isSome _ h4)
  obtain ⟨hd, hhd⟩ := Option.isSome_iff_exists.mp (deserialize_header_isSome _ h10)
  refine ⟨_, by rw [if_neg (by omega), hml, hhd], ?_⟩
  simp only [h]
  rfl

/-- Claim C4: the bit-packing constructors mask and OR-combine their inputs
and never reject any input: for all 16-bit direction and device values the
SessionID bits are (direction and 0x8000) or (device and 0x7FFF), and for
all 8-bit w_bit and stream values the HeaderByte2 bits are
(w_bit and 0x80) or (stream and 0x7F). -/
theorem c4_masking (direction equip_id w_bit stream : Nat)
    (_hd : direction < 65536) (_he : equip_id < 65536)
    (_hw : w_bit < 256) (_hs : stream < 256) :
    (SessionID.from_direction_equip_id direction equip_id).session_id
        = ((direction &&& 0x8000) ||| (equip_id &&& 0x7FFF))
      ∧ (HeaderByte2.from_w_bit_stream w_bit stream).header_byte2
        = ((w_bit &&& 0x80) ||| (stream &&& 0x7F)) :=
  ⟨rfl, rfl⟩

/-- Witness for C4 at direction 0x8001, device 0x0001, w_bit 0x80, stream 0x01. -/
theorem c4_masking_witness :
    0x8001 < 65536 ∧ 0x0001 < 65536 ∧ 0x80 < 256 ∧ 0x01 < 256 ∧
      ((SessionID.from_direction_equip_id 0x8001 0x0001).session_id
          = ((0x8001 &&& 0x8000) ||| (0x0001 &&& 0x7FFF))
        ∧ (HeaderByte2.from_w_bit_stream 0x80 0x01).header_byte2
          = ((0x80 &&& 0x80) ||| (0x01 &&& 0x7F))) :=
  ⟨by decide, by decide, by decide, by decide,
    c4_masking 0x8001 0x0001 0x80 0x01 (by decide) (by decide) (by decide) (by decide)⟩

/-- Claim C5: serialization follows the exact wire layout: encoding the
message built from the example header (session_id 0xFFFF, header_byte2 0,
function 0, p_type 0, s_type 1, system_bytes 0x11111111) with empty body
yields exactly the 14 bytes 0A 00 00 00 FF FF 00 00 00 01 11 11 11 11. -/
theorem c5_wire_layout :
    HSMSMessage.to_bytes (HSMSMessage.new HSMS.hdr1 []) =
      [0x0A, 0x00, 0x00, 0x00, 0xFF, 0xFF, 0x00, 0x00, 0x00, 0x01,
       0x11, 0x11, 0x11, 0x11] := by
  decide

/-- Claim C1: HSMSHeader construction is total over the kind and fills the
fixed fields per the dispatch table: p_type is always 0, s_type is the
numeric kind, system_bytes passes through; select-request, deselect-request,
linktest-request, linktest-response and separate-request get session_id
0xFFFF, header_byte2 0 and function byte 0; select-response,
deselect-response and reject-request get the caller session_id;
header_byte2 is caller-supplied only for reject-request, zero for the other
non-data kinds; data messages pack session_id from (direction, equip_id)
and header_byte2 from (w_bit, stream). -/
theorem c1_header_dispatch (st : SessionType)
    (a b c d e f g i : Nat) :
    (HSMSHeader.new st a b c d e f g i).p_type = 0
  ∧ (HSMSHeader.new st a b c d e f g i).s_type = SessionType.toNat st
  ∧ (HSMSHeader.new st a b c d e f g i).system_bytes = i
  ∧ (st ∈ [SessionType.SelectReq, SessionType.DeselectReq,
        SessionType.LinktestReq, SessionType.LinktestRsp,
        SessionType.SeparateReq] →
      (HSMSHeader.new st a b c d e f g i).session_id = { session_id := 0xFFFF }
      ∧ (HSMSHeader.new st a b c d e f g i).header_byte2 = { header_byte2 := 0 }
      ∧ (HSMSHeader.new st a b c d e f g i).header_byte3 = 0)
  ∧ (st ∈ [SessionType.SelectRsp, SessionType.DeselectRsp,
        SessionType.RejectReq] →
      (HSMSHeader.new st a b c d e f g i).session_id = { session_id := a })
  ∧ (st ∈ [SessionType.SelectRsp, SessionType.DeselectRsp] →
      (HSMSHeader.new st a b c d e f g i).header_byte2 = { header_byte2 := 0 })
  ∧ (st = SessionType.RejectReq →
      (HSMSHeader.new st a b c d e f g i).header_byte2 = { header_byte2 := d })
  ∧ (st = SessionType.SECS2 →
      (HSMSHeader.new st a b c d e f g i).session_id
          = SessionID.from_direction_equip_id b c
      ∧ (HSMSHeader.new st a b c d e f g i).header_byte2
          = HeaderByte2.from_w_bit_stream e f) := by
  cases st <;> simp [HSMSHeader.new, SessionType.toNat]

/-- Witness for C1 at kind reject-request with concrete arguments. -/
theorem c1_header_dispatch_witness :
    SessionType.RejectReq ∈ [SessionType.SelectRsp, SessionType.DeselectRsp,
      SessionType.RejectReq]
    ∧ (HSMSHeader.new SessionType.RejectReq 1 2 3 4 5 6 7 8).session_id
        = { session_id := 1 } :=
  ⟨by decide,
    (c1_header_dispatch SessionType.RejectReq 1 2 3 4 5 6 7 8).2.2.2.2.1 (by decide)⟩

/-- Claim C8: the codec never panics on malformed input: for every input
buffer, from_bytes either reports the explicit TooShort error or succeeds;
the internal length and header decode steps (modelled by the DecodeAbort
outcome) cannot abort on any buffer that passed the 14-byte minimum check. -/
theorem c8_no_abort (vec : List Nat) :
    HSMSMessage.from_bytes vec = .error .TooShort
    ∨ ∃ m, HSMSMessage.from_bytes vec = .ok m := by
  unfold HSMSMessage.from_bytes
  by_cases h : vec.length < 14
  · left
    rw [if_pos h]
  · right
    have h4 : 4 ≤ (vec.take 4).length := by simp; omega
    have h10 : 10 ≤ ((vec.drop 4).take 10).length := by simp; omega
    obtain ⟨ml, hml⟩ := Option.isSome_iff_exists.mp (deserialize_u32_isSome _ h4)
    obtain ⟨hd, hhd⟩ := Option.isSome_iff_exists.mp (deserialize_header_isSome _ h10)
    exact ⟨_, by rw [if_neg h, hml, hhd]⟩

/-- Claim C6: from_bytes enforces the 14-byte minimum exactly at the
boundary: every buffer of 13 bytes or fewer fails with TooShort, and every
buffer of exactly 14 bytes parses to a message with no body bytes. -/
theorem c6_boundary :
    (∀ vec : List Nat, vec.length ≤ 13 →
        HSMSMessage.from_bytes vec = .error .TooShort)
    ∧ (∀ vec : List Nat, vec.length = 14 →
        ∃ m, HSMSMessage.from_bytes vec = .ok m ∧ m.message_text = none) := by
  constructor
  · intro vec h
    unfold HSMSMessage.from_bytes
    rw [if_pos (by omega)]
  · intro vec h
    exact from_bytes_exact14 vec h

/-- Witness for C6: the 13-byte all-zero buffer is rejected as TooShort and
the 14-byte all-zero buffer parses with an absent body. -/
theorem c6_boundary_witness :
    (List.replicate 13 0).length ≤ 13
    ∧ HSMSMessage.from_bytes (List.replicate 13 0) = .error .TooShort
    ∧ (List.replicate 14 0).length = 14
    ∧ ∃ m, HSMSMessage.from_bytes (List.replicate 14 0) = .ok m
        ∧ m.message_text = none :=
  ⟨by decide, c6_boundary.1 (List.replicate 13 0) (by decide), by decide,
    c6_boundary.2 (List.replicate 14 0) (by decide)⟩

/-- Claim C7: resolving the message kind from a header is fallible but
never a crash: for an s_type outside the enumeration 0..7, 9 the resolver
returns an error carrying that very s_type value, and for an s_type equal
to the discriminant of some kind it returns that kind; the raw s_type is a
plain field of the header and is untouched by resolution. -/
theorem c7_resolve_kind (h : HSMSHeader) :
    (h.s_type ∉ ([0, 1, 2, 3, 4, 5, 6, 7, 9] : List Nat) →
        HSMSHeader.get_session_type h = .error h.s_type)
    ∧ (∀ st : SessionType, h.s_type = SessionType.toNat st →
        HSMSHeader.get_session_type h = .ok st) := by
  constructor
  · intro hn
    unfold HSMSHeader.get_session_type SessionType.tryFrom
    split_ifs with e0 e1 e2 e3 e4 e5 e6 e7 e9
    · exact absurd (by rw [e0]; decide) hn
    · exact absurd (by rw [e1]; decide) hn
    · exact absurd (by rw [e2]; decide) hn
    · exact absurd (by rw [e3]; decide) hn
    · exact absurd (by rw [e4]; decide) hn
    · exact absurd (by rw [e5]; decide) hn
    · exact absurd (by rw [e6]; decide) hn
    · exact absurd (by rw [e7]; decide) hn
    · exact absurd (by rw [e9]; decide) hn
    · rfl
  · intro st hst
    cases st <;>
      (unfold HSMSHeader.get_session_type SessionType.tryFrom; rw [hst]; rfl)

/-- Witness for C7: s_type 8 resolves to the error carrying 8, and the
example select-request header (s_type 1) resolves to the select-request kind. -/
theorem c7_resolve_kind_witness :
    HSMS.hdr8.s_type ∉ ([0, 1, 2, 3, 4, 5, 6, 7, 9] : List Nat)
    ∧ HSMSHeader.get_session_type HSMS.hdr8 = .error 8
    ∧ HSMS.hdr1.s_type = SessionType.toNat SessionType.SelectReq
    ∧ HSMSHeader.get_session_type HSMS.hdr1 = .ok SessionType.SelectReq :=
  ⟨by decide, (c7_resolve_kind HSMS.hdr8).1 (by decide), by decide,
    (c7_resolve_kind HSMS.hdr1).2 SessionType.SelectReq (by decide)⟩

/-- Claim C9: from_bytes does not re-validate the declared length: on any
buffer of at least 14 bytes (written as four length bytes followed by at
least ten more), the parse succeeds, the stored message_length is exactly
the little-endian value of the first four bytes, and the body is whatever
follows the header, independent of the declared value. -/
theorem c9_declared_length (b0 b1 b2 b3 : Nat) (rest : List Nat)
    (h : 10 ≤ rest.length) :
    ∃ m, HSMSMessage.from_bytes (b0 :: b1 :: b2 :: b3 :: rest) = .ok m
      ∧ m.message_length = b0 + 256 * b1 + 65536 * b2 + 16777216 * b3
      ∧ m.message_text = (if 10 < rest.length then some (rest.drop 10) else none) := by
  have h10 : 10 ≤ (rest.take 10).length := by simp; omega
  obtain ⟨hd, hhd⟩ := Option.isSome_iff_exists.mp (deserialize_header_isSome _ h10)
  have hmain : HSMSMessage.from_bytes (b0 :: b1 :: b2 :: b3 :: rest) = .ok
      { message_length := b0 + 256 * b1 + 65536 * b2 + 16777216 * b3
        hsms_header := hd
        message_text :=
          if 14 < (b0 :: b1 :: b2 :: b3 :: rest).length
            then some ((b0 :: b1 :: b2 :: b3 :: rest).drop 14) else none } := by
    unfold HSMSMessage.from_bytes
    rw [if_neg (by simp; omega),
      show List.drop 4 (b0 :: b1 :: b2 :: b3 :: rest) = rest from rfl, hhd]
    rfl
  refine ⟨_, hmain, rfl, ?_⟩
  simp only [List.length_cons]
  rw [show (b0 :: b1 :: b2 :: b3 :: rest).drop 14 = rest.drop 10 from rfl]
  by_cases hc : 10 < rest.length
  · rw [if_pos (by omega), if_pos hc]
  · rw [if_neg (by omega), if_neg hc]

/-- Witness for C9: a 14-byte buffer declaring length 99 parses with
message_length 99 and an empty body, even though 99 differs from 10. -/
theorem c9_declared_length_witness :
    10 ≤ (List.replicate 10 0).length
    ∧ (∃ m, HSMSMessage.from_bytes (99 :: 0 :: 0 :: 0 :: List.replicate 10 0)
          = .ok m
        ∧ m.message_length = 99 + 256 * 0 + 65536 * 0 + 16777216 * 0
        ∧ m.message_text
            = (if 10 < (List.replicate 10 0).length
                then some ((List.replicate 10 0).drop 10) else none)) :=
  ⟨by decide, c9_declared_length 99 0 0 0 (List.replicate 10 0) (by decide)⟩

/-- Claim C2 counterexample: the round trip fails on the valid message
built from the example header with an empty body: it encodes to 14 bytes,
which decode back with the body stored as None rather than Some of the
empty list. -/
theorem c2_roundtrip_counterexample :
    HSMSMessage.from_bytes (HSMSMessage.to_bytes (HSMSMessage.new HSMS.hdr1 []))
      ≠ Except.ok (HSMSMessage.new HSMS.hdr1 []) := by
  decide

/-- Claim C2 (amended): for every well-formed HSMSMessage whose body is not
the present-but-empty vector, decoding the encoding gives back the same
message; a message holding Some of the empty list decodes back with the
body stored as None instead. -/
theorem c2_roundtrip_amended (m : HSMSMessage) (hwf : HSMSMessage.wf m)
    (hne : m.message_text ≠ some ([] : List Nat)) :
    HSMSMessage.from_bytes (HSMSMessage.to_bytes m) = Except.ok m := by
  obtain ⟨ml, ⟨⟨sid⟩, ⟨b2⟩, b3, pt, st, sys⟩, body⟩ := m
  obtain ⟨⟨hs1, hs2, hs3, hs4, hs5, hs6⟩, hml⟩ := hwf
  dsimp only at hs1 hs2 hs3 hs4 hs5 hs6 hml hne
  cases body with
  | none =>
      rw [show HSMSMessage.to_bytes ⟨ml, ⟨⟨sid⟩, ⟨b2⟩, b3, pt, st, sys⟩, none⟩
          = ml % 256 :: ml / 256 % 256 :: ml / 65536 % 256 :: ml / 16777216 % 256 ::
            sid % 256 :: sid / 256 % 256 :: b2 % 256 :: b3 % 256 :: pt % 256 ::
            st % 256 :: sys % 256 :: sys / 256 % 256 :: sys / 65536 % 256 ::
            sys / 16777216 % 256 :: [] from rfl]
      rw [from_bytes_frame, if_pos rfl]
      simp only [Except.ok.injEq, HSMSMessage.mk.injEq, HSMSHeader.mk.injEq,
        SessionID.mk.injEq, HeaderByte2.mk.injEq]
      refine ⟨by omega, ⟨by omega, by omega, by omega, by omega, by omega, by omega⟩, trivial⟩
  | some t =>
      cases t with
      | nil => exact absurd rfl hne
      | cons a t =>
          rw [show HSMSMessage.to_bytes ⟨ml, ⟨⟨sid⟩, ⟨b2⟩, b3, pt, st, sys⟩, some (a :: t)⟩
              = ml % 256 :: ml / 256 % 256 :: ml / 65536 % 256 :: ml / 16777216 % 256 ::
                sid % 256 :: sid / 256 % 256 :: b2 % 256 :: b3 % 256 :: pt % 256 ::
                st % 256 :: sys % 256 :: sys / 256 % 256 :: sys / 65536 % 256 ::
                sys / 16777216 % 256 :: a :: t from rfl]
          rw [from_bytes_frame, if_neg (by simp)]
          simp only [Except.ok.injEq, HSMSMessage.mk.injEq, HSMSHeader.mk.injEq,
            SessionID.mk.injEq, HeaderByte2.mk.injEq]
          refine ⟨by omega, ⟨by omega, by omega, by omega, by omega, by omega, by omega⟩, trivial⟩

/-- Witness for the amended C2 at a concrete well-formed message with a
one-byte body. -/
theorem c2_roundtrip_amended_witness :
    HSMSMessage.wf (HSMSMessage.new HSMS.hdr1 [7])
    ∧ (HSMSMessage.new HSMS.hdr1 [7]).message_text ≠ some ([] : List Nat)
    ∧ HSMSMessage.from_bytes (HSMSMessage.to_bytes (HSMSMessage.new HSMS.hdr1 [7]))
        = Except.ok (HSMSMessage.new HSMS.hdr1 [7]) :=
  ⟨by decide, by decide,
    c2_roundtrip_amended (HSMSMessage.new HSMS.hdr1 [7]) (by decide) (by decide)⟩

/-- Claim C3 counterexample: parsing does not restore the length
invariant: the 15-byte buffer declaring length 77 parses successfully into
a message with message_length 77 but body length 1, and 77 differs from
10 + 1. -/
theorem c3_length_counterexample :
    HSMSMessage.from_bytes (77 :: 0 :: 0 :: 0 :: List.replicate 11 1)
      = Except.ok
          { message_length := 77
            hsms_header :=
              { session_id := { session_id := 257 }
                header_byte2 := { header_byte2 := 1 }
                header_byte3 := 1
                p_type := 1
                s_type := 1
                system_bytes := 16843009 }
            message_text := some [1] }
    ∧ (77 : Nat) ≠ 10 + 1 := by
  constructor
  · decide
  · decide

/-- Claim C3 (amended): the length invariant holds when constructing: for
every header and every body shorter than 2^32 - 10 bytes, HSMSMessage::new
stores message_length = 10 + body length (the sum is computed in u32, so
astronomically long bodies would wrap).  When parsing, message_length is
the declared 4-byte prefix value, which need not equal 10 plus the body
length. -/
theorem c3_length_invariant_amended (h : HSMSHeader) (text : List Nat)
    (hlen : text.length < 4294967286) :
    (HSMSMessage.new h text).message_length = 10 + text.length := by
  unfold HSMSMessage.new HSMSHeader.len
  exact Nat.mod_eq_of_lt (by omega)

/-- Witness for the amended C3 at the example header with a two-byte body. -/
theorem c3_length_invariant_amended_witness :
    ([1, 2] : List Nat).length < 4294967286
    ∧ (HSMSMessage.new HSMS.hdr1 [1, 2]).message_length
        = 10 + ([1, 2] : List Nat).length :=
  ⟨by decide, c3_length_invariant_amended HSMS.hdr1 [1, 2] (by decide)⟩

/-- Claim C10: the two empty-body representations are distinct and come
from different operations: new always stores Some (an explicit empty
vector for an empty body), from_bytes on exactly 14 bytes stores None, and
structural equality distinguishes the two messages even though they encode
to the same bytes. -/
theorem c10_empty_body_repr :
    (∀ (h : HSMSHeader) (t : List Nat), (HSMSMessage.new h t).message_text = some t)
    ∧ (∀ vec : List Nat, vec.length = 14 →
        ∃ m, HSMSMessage.from_bytes vec = .ok m ∧ m.message_text = none)
    ∧ HSMSMessage.new HSMS.hdr1 [] ≠ HSMS.msg_none
    ∧ HSMSMessage.to_bytes (HSMSMessage.new HSMS.hdr1 [])
        = HSMSMessage.to_bytes HSMS.msg_none
    ∧ HSMSMessage.from_bytes (HSMSMessage.to_bytes (HSMSMessage.new HSMS.hdr1 []))
        = Except.ok HSMS.msg_none :=
  ⟨fun _ _ => rfl, from_bytes_exact14, by decide, by decide, by decide⟩

/-- Witness for C10: the 14-byte encoding of the example empty message
parses back with the body stored as None. -/
theorem c10_empty_body_repr_witness :
    (HSMSMessage.new HSMS.hdr1 []).message_text = some []
    ∧ (HSMSMessage.to_bytes HSMS.msg_none).length = 14
    ∧ ∃ m, HSMSMessage.from_bytes (HSMSMessage.to_bytes HSMS.msg_none) = .ok m
        ∧ m.message_text = none :=
  ⟨c10_empty_body_repr.1 HSMS.hdr1 [], by decide,
    c10_empty_body_repr.2.1 (HSMSMessage.to_bytes HSMS.msg_none) (by decide)⟩
